import Mathlib

set_option maxHeartbeats 1000000
set_option maxRecDepth 8192

namespace MoveVM

/-! # Shallow embedding of the Starcoin Move VM adapter and stdlib natives

Definitions are translated from:
  - `language/move-vm/runtime/src/move_vm_adapter.rs` (SessionAdapter: bundle
    publication pipeline, entry-argument verification, loader-cache flushing),
  - `language/move-stdlib/src/natives/hash.rs` (sha2_256 / sha3_256 natives),
  - `language/move-stdlib/src/natives/vector.rs` (vector natives and
    `native_error_to_abort`).
External collaborators (binary-format deserializer, loader, compatibility
checker, bytecode verifier, value layer, serialization codecs) are either
parameters of the embedding or are modelled from the specification, as noted
on each definition. -/

/-! ## Status codes and error values (move-core `vm_status`, move-binary-format `errors`) -/

/-- The subset of move-core-types `StatusCode` used by the adapter and the
    stdlib natives. -/
inductive StatusCode where
  | MODULE_ADDRESS_DOES_NOT_MATCH_SENDER
  | INVALID_MODULE_PUBLISHER
  | BACKWARD_INCOMPATIBLE_MODULE_UPDATE
  | DUPLICATE_MODULE_NAME
  | NUMBER_OF_SIGNER_ARGUMENTS_MISMATCH
  | RET_TYPE_MISMATCH_ERROR
  | VECTOR_OPERATION_ERROR
  | ABORTED
  | INTERNAL_TYPE_ERROR
  | UNKNOWN_INVARIANT_VIOLATION_ERROR
  | FAILED_TO_DESERIALIZE_ARGUMENT
deriving DecidableEq

/-- Index kinds used by `PartialVMError::at_index` (move-binary-format `IndexKind`). -/
inductive IndexKind where
  | AddressIdentifier
  | ModuleHandle
  | FunctionHandle
deriving DecidableEq

/-- Execution-state trace attached to an error (opaque diagnostic data). -/
abbrev ExecutionState := List String

/-- Error locations (move-binary-format `Location`). -/
inductive Location where
  | Undefined
  | Script
deriving DecidableEq

/-- move-binary-format `PartialVMError`: a major status plus optional diagnostic
    fields, exactly the tuple returned by its `all_data()` accessor. -/
structure PartialVMError where
  major_status : StatusCode
  sub_status : Option Nat
  message : Option String
  exec_state : Option ExecutionState
  indices : List (IndexKind × Nat)
  offsets : List (Nat × Nat)
deriving DecidableEq

/-- `PartialVMError::new`: an error with the given major status and no diagnostics. -/
def PartialVMError.new (s : StatusCode) : PartialVMError :=
  ⟨s, none, none, none, [], []⟩

/-- `PartialVMError::with_sub_status`. -/
def PartialVMError.with_sub_status (e : PartialVMError) (c : Nat) : PartialVMError :=
  { e with sub_status := some c }

/-- `PartialVMError::with_message`. -/
def PartialVMError.with_message (e : PartialVMError) (m : String) : PartialVMError :=
  { e with message := some m }

/-- `PartialVMError::with_exec_state`. -/
def PartialVMError.with_exec_state (e : PartialVMError) (s : ExecutionState) : PartialVMError :=
  { e with exec_state := some s }

/-- `PartialVMError::at_index`: push one (kind, index) diagnostic. -/
def PartialVMError.at_index (e : PartialVMError) (k : IndexKind) (i : Nat) : PartialVMError :=
  { e with indices := e.indices ++ [(k, i)] }

/-- `PartialVMError::at_indices`: extend the (kind, index) diagnostics. -/
def PartialVMError.at_indices (e : PartialVMError) (l : List (IndexKind × Nat)) : PartialVMError :=
  { e with indices := e.indices ++ l }

/-- `PartialVMError::at_code_offsets`: extend the code-offset diagnostics. -/
def PartialVMError.at_code_offsets (e : PartialVMError) (l : List (Nat × Nat)) : PartialVMError :=
  { e with offsets := e.offsets ++ l }

/-- move-binary-format `VMError`: a `PartialVMError` finished at a `Location`. -/
structure VMError where
  error : PartialVMError
  location : Location
deriving DecidableEq

/-- `PartialVMError::finish`. -/
def PartialVMError.finish (e : PartialVMError) (loc : Location) : VMError :=
  ⟨e, loc⟩

/-- Major status of a finished error. -/
def VMError.major_status (e : VMError) : StatusCode :=
  e.error.major_status

/-- move-binary-format `verification_error(status, kind, idx)`. -/
def verification_error (s : StatusCode) (k : IndexKind) (i : Nat) : PartialVMError :=
  (PartialVMError.new s).at_index k i

/-! ## `native_error_to_abort` (move-stdlib `natives/vector.rs`) -/

/-- `native_error_to_abort` from `natives/vector.rs`: rebuild the error,
    remapping the `VECTOR_OPERATION_ERROR` major status to `ABORTED` and
    copying every diagnostic field across. -/
def native_error_to_abort (err : PartialVMError) : PartialVMError :=
  let new_err :=
    match err.major_status with
    | StatusCode.VECTOR_OPERATION_ERROR => PartialVMError.new StatusCode.ABORTED
    | major_status => PartialVMError.new major_status
  let new_err :=
    match err.sub_status with
    | none => new_err
    | some code => new_err.with_sub_status code
  let new_err :=
    match err.message with
    | none => new_err
    | some message => new_err.with_message message
  let new_err :=
    match err.exec_state with
    | none => new_err
    | some stacktrace => new_err.with_exec_state stacktrace
  (new_err.at_indices err.indices).at_code_offsets err.offsets

/-- C4: `native_error_to_abort` maps the internal vector-operation major status
    to `ABORTED` and leaves every other major status alone, while preserving the
    sub-status, message, execution state, indices and code offsets unchanged. -/
theorem native_error_to_abort_spec (err : PartialVMError) :
    (native_error_to_abort err).major_status =
      (if err.major_status = StatusCode.VECTOR_OPERATION_ERROR then StatusCode.ABORTED
       else err.major_status) ∧
    (native_error_to_abort err).sub_status = err.sub_status ∧
    (native_error_to_abort err).message = err.message ∧
    (native_error_to_abort err).exec_state = err.exec_state ∧
    (native_error_to_abort err).indices = err.indices ∧
    (native_error_to_abort err).offsets = err.offsets := by
  obtain ⟨major, sub, msg, exec, idxs, offs⟩ := err
  refine ⟨?_, ?_, ?_, ?_, ?_, ?_⟩ <;>
    cases major <;> cases sub <;> cases msg <;> cases exec <;>
      simp [native_error_to_abort, PartialVMError.new, PartialVMError.with_sub_status,
        PartialVMError.with_message, PartialVMError.with_exec_state,
        PartialVMError.at_indices, PartialVMError.at_code_offsets]

/-! ## Modules, the data store, and the publication pipeline
    (`move_vm_adapter.rs`, `SessionAdapter`) -/

/-- Serialized byte blob (a `Vec<u8>` of module bytes or argument bytes). -/
abbrev Blob := List Nat

/-- move-core `ModuleId`: the `(address, name)` key of a module. -/
structure ModuleId where
  address : Nat
  name : String
deriving DecidableEq

/-- The view of a move-binary-format `CompiledModule` used by the adapter:
    its self address and name (via `self_id`) and the raw index of its self
    module handle (used in error diagnostics). The remaining contents are only
    inspected by external collaborators (compatibility checker, verifier). -/
structure CompiledModule where
  address : Nat
  name : String
  self_handle_idx : Nat
deriving DecidableEq

/-- `CompiledModule::self_id`. -/
def CompiledModule.self_id (m : CompiledModule) : ModuleId :=
  ⟨m.address, m.name⟩

/-- Modelled from the spec: the DataStore resolver (an external collaborator,
    §3/§6 of the spec; the concrete `TransactionDataCache` is not under src/)
    as a finite association of `ModuleId` to stored module bytes. -/
abbrev DataStore := List (ModuleId × Blob)

/-- Modelled from the spec: `DataStore::exists_module(id) -> bool`. -/
def exists_module (store : DataStore) (id : ModuleId) : Bool :=
  store.any (fun p => p.1 = id)

/-- Modelled from the spec: `DataStore::publish_module(id, bytes, is_republish)`
    stores `bytes` under `id`, superseding any previous entry. -/
def publish_module (store : DataStore) (id : ModuleId) (blob : Blob)
    (_is_republish : Bool) : DataStore :=
  (id, blob) :: store.filter (fun p => p.1 ≠ id)

/-- `PublishModuleBundleOption` from `move_vm_adapter.rs`. -/
structure PublishModuleBundleOption where
  force_publish : Bool
  only_new_module : Bool
deriving DecidableEq

/-- The external collaborators consumed by the publication pipeline, as
    interfaces (spec §6): the binary-format deserializer, the loader's
    `load_module`, the compatibility checker
    (`Compatibility::check(false, old, new).is_fully_compatible()` composed with
    `normalized::Module::new`), and the bytecode verifier
    (`verify_module_bundle_for_publication`). -/
structure VMExternals where
  deserialize : Blob → Except PartialVMError CompiledModule
  load_module : DataStore → ModuleId → Except VMError CompiledModule
  compat_check : CompiledModule → CompiledModule → Bool
  verify_bundle : List CompiledModule → DataStore → Except VMError Unit

/-- The deserialization step of `verify_module_bundle`: deserialize every blob,
    stopping at the first failure (the `collect` over `PartialVMResult`). -/
def deserialize_all (deserialize : Blob → Except PartialVMError CompiledModule) :
    List Blob → Except PartialVMError (List CompiledModule)
  | [] => .ok []
  | b :: rest =>
    match deserialize b with
    | .error e => .error e
    | .ok m =>
      match deserialize_all deserialize rest with
      | .error e => .error e
      | .ok ms => .ok (m :: ms)

/-- The address-ownership loop of `verify_module_bundle`: every module's self
    address must equal the transaction sender. -/
def check_modules_address (sender : Nat) : List CompiledModule → Except VMError Unit
  | [] => .ok ()
  | m :: rest =>
    if m.address ≠ sender then
      .error ((verification_error StatusCode.MODULE_ADDRESS_DOES_NOT_MATCH_SENDER
        IndexKind.AddressIdentifier m.self_handle_idx).finish Location.Undefined)
    else check_modules_address sender rest

/-- The per-module republish/compatibility checks of `verify_module_bundle`,
    for one module: run only when the module's id already exists in the store. -/
def check_republish_one (ext : VMExternals) (store : DataStore)
    (opt : PublishModuleBundleOption) (m : CompiledModule) : Except VMError Unit :=
  if exists_module store m.self_id then
    if opt.only_new_module then
      .error (((PartialVMError.new StatusCode.INVALID_MODULE_PUBLISHER).at_index
        IndexKind.ModuleHandle m.self_handle_idx).finish Location.Undefined)
    else
      match ext.load_module store m.self_id with
      | .error e => .error e
      | .ok old_module =>
        if !(ext.compat_check old_module m) && !opt.force_publish then
          .error ((PartialVMError.new
            StatusCode.BACKWARD_INCOMPATIBLE_MODULE_UPDATE).finish Location.Undefined)
        else .ok ()
  else .ok ()

/-- The main loop of `verify_module_bundle`: for each module, first the
    republish/compatibility checks, then insertion of its id into the
    `bundle_unverified` set, failing on a repeat. -/
def check_republish_loop (ext : VMExternals) (store : DataStore)
    (opt : PublishModuleBundleOption) (seen : List ModuleId) :
    List CompiledModule → Except VMError Unit
  | [] => .ok ()
  | m :: rest =>
    match check_republish_one ext store opt m with
    | .error e => .error e
    | .ok () =>
      if m.self_id ∈ seen then
        .error ((PartialVMError.new StatusCode.DUPLICATE_MODULE_NAME).finish
          Location.Undefined)
      else check_republish_loop ext store opt (m.self_id :: seen) rest

/-- `SessionAdapter::verify_module_bundle`: deserialize the blobs, check module
    self addresses against the sender, run the republish/compatibility and
    duplicate checks, then invoke the external bytecode verifier. -/
def verify_module_bundle (ext : VMExternals) (store : DataStore)
    (modules : List Blob) (sender : Nat) (opt : PublishModuleBundleOption) :
    Except VMError (List CompiledModule) :=
  match deserialize_all ext.deserialize modules with
  | .error e => .error (e.finish Location.Undefined)
  | .ok compiled_modules =>
    match check_modules_address sender compiled_modules with
    | .error e => .error e
    | .ok () =>
      match check_republish_loop ext store opt [] compiled_modules with
      | .error e => .error e
      | .ok () =>
        match ext.verify_bundle compiled_modules store with
        | .error e => .error e
        | .ok () => .ok compiled_modules

/-- Transaction-scoped session state threaded through the adapter: the data
    store, plus the loader-cache generation counter (spec §4.3; the loader's
    internals are external, its flush state is modelled as a generation that
    `empty_cache` advances). -/
structure SessionState where
  store : DataStore
  cache_generation : Nat
deriving DecidableEq

/-- The publish loop of `publish_module_bundle_with_option`: for each verified
    module (zipped with its blob), recompute `exists_module` to obtain the
    `is_republish` flag, then `publish_module`. -/
def publish_all (store : DataStore) : List (CompiledModule × Blob) → DataStore
  | [] => store
  | (m, blob) :: rest =>
    let republish := exists_module store m.self_id
    publish_all (publish_module store m.self_id blob republish) rest

/-- `SessionAdapter::publish_module_bundle_with_option`: verify the whole
    bundle, and only on success write each module's bytes to the data store.
    The state is threaded explicitly; the second component is the session state
    when the call returns. -/
def publish_module_bundle_with_option (ext : VMExternals) (st : SessionState)
    (modules : List Blob) (sender : Nat) (opt : PublishModuleBundleOption) :
    Except VMError Unit × SessionState :=
  match verify_module_bundle ext st.store modules sender opt with
  | .error e => (.error e, st)
  | .ok compiled_modules =>
    (.ok (), { st with store := publish_all st.store (compiled_modules.zip modules) })

/-- `SessionAdapter::empty_loader_cache`, which calls the loader's
    `empty_cache()`: drop the whole cache generation (spec §4.3), modelled as
    advancing the generation counter. -/
def empty_loader_cache (st : SessionState) : SessionState :=
  { st with cache_generation := st.cache_generation + 1 }

/-! ## Concrete fixtures for witnesses and counterexamples -/

/-- A concrete module published at address 2 under the name M. -/
def exModule : CompiledModule := ⟨2, "M", 0⟩

/-- The module id of `exModule`. -/
def exId : ModuleId := exModule.self_id

/-- Concrete externals whose collaborators all succeed: every blob
    deserializes to `exModule`, loading succeeds, the compatibility check
    accepts, and the bytecode verifier accepts. -/
def extOk : VMExternals :=
  { deserialize := fun _ => .ok exModule
    load_module := fun _ _ => .ok exModule
    compat_check := fun _ _ => true
    verify_bundle := fun _ _ => .ok () }

/-- Concrete externals identical to `extOk` except that the compatibility
    checker rejects every old/new pair. -/
def extIncompat : VMExternals :=
  { deserialize := fun _ => .ok exModule
    load_module := fun _ _ => .ok exModule
    compat_check := fun _ _ => false
    verify_bundle := fun _ _ => .ok () }

/-! ## C1: all-or-nothing publication -/

/-- C1: if any module of the bundle fails any pipeline step — that is, if
    `verify_module_bundle` returns an error — then
    `publish_module_bundle_with_option` returns that error and the session
    state (in particular the DataStore) is identical to before the call: no
    `publish_module` call is made. -/
theorem publish_bundle_atomic (ext : VMExternals) (st : SessionState)
    (modules : List Blob) (sender : Nat) (opt : PublishModuleBundleOption)
    (e : VMError)
    (h : verify_module_bundle ext st.store modules sender opt = .error e) :
    publish_module_bundle_with_option ext st modules sender opt = (.error e, st) := by
  simp [publish_module_bundle_with_option, h]

/-- Witness for C1: a concrete bundle whose single module is owned by address 2
    but is submitted by sender 3, so verification fails with the
    address-ownership error and the store is left untouched. -/
theorem publish_bundle_atomic_witness :
    publish_module_bundle_with_option extOk ⟨[], 0⟩ [[0]] 3 ⟨false, false⟩ =
      (.error ((verification_error StatusCode.MODULE_ADDRESS_DOES_NOT_MATCH_SENDER
        IndexKind.AddressIdentifier 0).finish Location.Undefined), ⟨[], 0⟩) :=
  publish_bundle_atomic extOk ⟨[], 0⟩ [[0]] 3 ⟨false, false⟩ _ rfl

/-! ## C2: loader-cache invalidation on republish -/

/-- C2 counterexample: a concrete successful republish (the module id already
    exists in the store) after which the loader-cache generation is unchanged,
    although flushing the cache (`empty_loader_cache`) would have changed it.
    The publication call therefore does not invalidate the LoaderCache. -/
theorem publish_republish_no_cache_flush_cex :
    (publish_module_bundle_with_option extOk ⟨[(exId, [9])], 0⟩ [[7]] 2
      ⟨false, false⟩).1 = .ok () ∧
    exists_module [(exId, [9])] exId = true ∧
    (publish_module_bundle_with_option extOk ⟨[(exId, [9])], 0⟩ [[7]] 2
      ⟨false, false⟩).2.cache_generation = 0 ∧
    (empty_loader_cache ⟨[(exId, [9])], 0⟩).cache_generation ≠ 0 :=
  ⟨rfl, rfl, rfl, by decide⟩

/-- C2 (amended): `publish_module_bundle_with_option` never itself flushes the
    loader cache — the cache generation after the call (republish or not,
    success or failure) equals the generation before it — while the separate
    operation `empty_loader_cache` is what advances the generation. -/
theorem publish_bundle_leaves_loader_cache (ext : VMExternals) (st : SessionState)
    (modules : List Blob) (sender : Nat) (opt : PublishModuleBundleOption) :
    (publish_module_bundle_with_option ext st modules sender opt).2.cache_generation =
      st.cache_generation ∧
    (empty_loader_cache st).cache_generation = st.cache_generation + 1 := by
  constructor
  · unfold publish_module_bundle_with_option
    cases verify_module_bundle ext st.store modules sender opt <;> rfl
  · rfl

/-! ## C8: address-ownership check -/

/-- Helper for C8: the address loop reports the first module whose self address
    differs from the sender, through `verification_error` at its self handle
    index. -/
theorem check_modules_address_error (sender : Nat) (pre : List CompiledModule)
    (m : CompiledModule) (post : List CompiledModule)
    (hpre : ∀ x ∈ pre, x.address = sender) (hm : m.address ≠ sender) :
    check_modules_address sender (pre ++ m :: post) =
      .error ((verification_error StatusCode.MODULE_ADDRESS_DOES_NOT_MATCH_SENDER
        IndexKind.AddressIdentifier m.self_handle_idx).finish Location.Undefined) := by
  induction pre with
  | nil => simp [check_modules_address, hm]
  | cons x xs ih =>
    have hx : x.address = sender := hpre x (by simp)
    simp only [List.cons_append, check_modules_address, hx, ne_eq,
      not_true_eq_false, if_false]
    exact ih (fun y hy => hpre y (List.mem_cons_of_mem _ hy))

/-- C8: if the bundle deserializes and some module's self address differs from
    the transaction sender, `verify_module_bundle` fails with the
    address-ownership error naming the (first) offending module by its self
    handle index — for every sender distinct from that module's address. -/
theorem verify_bundle_address_mismatch (ext : VMExternals) (store : DataStore)
    (blobs : List Blob) (sender : Nat) (opt : PublishModuleBundleOption)
    (pre : List CompiledModule) (m : CompiledModule) (post : List CompiledModule)
    (hdes : deserialize_all ext.deserialize blobs = .ok (pre ++ m :: post))
    (hpre : ∀ x ∈ pre, x.address = sender)
    (hm : m.address ≠ sender) :
    verify_module_bundle ext store blobs sender opt =
      .error ((verification_error StatusCode.MODULE_ADDRESS_DOES_NOT_MATCH_SENDER
        IndexKind.AddressIdentifier m.self_handle_idx).finish Location.Undefined) := by
  have h := check_modules_address_error sender pre m post hpre hm
  simp [verify_module_bundle, hdes, h]

/-- Witness for C8: the concrete one-module bundle owned by address 2,
    submitted by sender 5. -/
theorem verify_bundle_address_mismatch_witness :
    verify_module_bundle extOk [] [[0]] 5 ⟨false, false⟩ =
      .error ((verification_error StatusCode.MODULE_ADDRESS_DOES_NOT_MATCH_SENDER
        IndexKind.AddressIdentifier 0).finish Location.Undefined) :=
  verify_bundle_address_mismatch extOk [] [[0]] 5 ⟨false, false⟩ [] exModule []
    rfl (by simp) (by decide)

/-! ## C9: duplicate modules in a bundle -/

/-- Helper for C9: the address loop succeeds when every module's self address
    equals the sender. -/
theorem check_modules_address_ok (sender : Nat) :
    ∀ cms : List CompiledModule, (∀ m ∈ cms, m.address = sender) →
      check_modules_address sender cms = .ok ()
  | [], _ => rfl
  | m :: rest, h => by
    have hm : m.address = sender := h m (by simp)
    simp only [check_modules_address, hm, ne_eq, not_true_eq_false, if_false]
    exact check_modules_address_ok sender rest
      (fun x hx => h x (List.mem_cons_of_mem _ hx))

/-- Helper for C9: when no module of the (remaining) bundle pre-exists in the
    store, the main loop reduces to pure duplicate detection, which fails with
    the duplicate-module error as soon as some id repeats (against the bundle
    itself or the already-seen set). -/
theorem check_republish_loop_dup_fresh (ext : VMExternals) (store : DataStore)
    (opt : PublishModuleBundleOption) :
    ∀ (cms : List CompiledModule) (seen : List ModuleId),
      (∀ m ∈ cms, exists_module store m.self_id = false) →
      (¬ (cms.map CompiledModule.self_id).Nodup ∨
        ∃ m ∈ cms, m.self_id ∈ seen) →
      check_republish_loop ext store opt seen cms =
        .error ((PartialVMError.new StatusCode.DUPLICATE_MODULE_NAME).finish
          Location.Undefined) := by
  intro cms
  induction cms with
  | nil =>
    intro seen _ h
    rcases h with h | ⟨m, hm, _⟩
    · simp at h
    · exact absurd hm (List.not_mem_nil m)
  | cons m rest ih =>
    intro seen hfresh hdup
    have hm : exists_module store m.self_id = false := hfresh m (by simp)
    have hone : check_republish_one ext store opt m = .ok () := by
      simp [check_republish_one, hm]
    simp only [check_republish_loop, hone]
    by_cases hin : m.self_id ∈ seen
    · simp [hin]
    · simp only [if_neg hin]
      apply ih (m.self_id :: seen)
      · intro x hx; exact hfresh x (List.mem_cons_of_mem _ hx)
      · rcases hdup with hnd | ⟨x, hx, hxin⟩
        · rw [List.map_cons, List.nodup_cons] at hnd
          rcases Classical.not_and_iff_or_not_not.mp hnd with hmem | hnd'
          · rcases List.mem_map.mp (Classical.not_not.mp hmem) with ⟨x, hx, hxid⟩
            exact Or.inr ⟨x, hx, by rw [hxid]; exact List.mem_cons_self _ _⟩
          · exact Or.inl hnd'
        · rcases List.mem_cons.mp hx with rfl | hx'
          · exact absurd hxin hin
          · exact Or.inr ⟨x, hx', List.mem_cons_of_mem _ hxin⟩

/-- Helper for C9: whatever the per-module republish checks do, a repeated id
    in the bundle makes the main loop fail with some error. -/
theorem check_republish_loop_dup_fails (ext : VMExternals) (store : DataStore)
    (opt : PublishModuleBundleOption) :
    ∀ (cms : List CompiledModule) (seen : List ModuleId),
      (¬ (cms.map CompiledModule.self_id).Nodup ∨ ∃ m ∈ cms, m.self_id ∈ seen) →
      ∃ e, check_republish_loop ext store opt seen cms = .error e := by
  intro cms
  induction cms with
  | nil =>
    intro seen h
    rcases h with h | ⟨m, hm, _⟩
    · simp at h
    · exact absurd hm (List.not_mem_nil m)
  | cons m rest ih =>
    intro seen hdup
    cases hone : check_republish_one ext store opt m with
    | error e => exact ⟨e, by simp [check_republish_loop, hone]⟩
    | ok u =>
      cases u
      simp only [check_republish_loop, hone]
      by_cases hin : m.self_id ∈ seen
      · exact ⟨(PartialVMError.new StatusCode.DUPLICATE_MODULE_NAME).finish
          Location.Undefined, by simp [hin]⟩
      · simp only [if_neg hin]
        apply ih (m.self_id :: seen)
        rcases hdup with hnd | ⟨x, hx, hxin⟩
        · rw [List.map_cons, List.nodup_cons] at hnd
          rcases Classical.not_and_iff_or_not_not.mp hnd with hmem | hnd'
          · rcases List.mem_map.mp (Classical.not_not.mp hmem) with ⟨x, hx, hxid⟩
            exact Or.inr ⟨x, hx, by rw [hxid]; exact List.mem_cons_self _ _⟩
          · exact Or.inl hnd'
        · rcases List.mem_cons.mp hx with rfl | hx'
          · exact absurd hxin hin
          · exact Or.inr ⟨x, hx', List.mem_cons_of_mem _ hxin⟩

/-- C9 counterexample: a bundle of two identical modules whose id already
    exists in the store with an incompatible old version (no force-publish).
    `verify_module_bundle` fails with the backward-incompatibility error from
    the first module's republish check — not with the duplicate-module error —
    because duplicate detection runs after the republish/compatibility checks
    within each iteration. -/
theorem verify_bundle_duplicate_cex :
    deserialize_all extIncompat.deserialize [[1], [1]] = .ok [exModule, exModule] ∧
    verify_module_bundle extIncompat [(exId, [9])] [[1], [1]] 2 ⟨false, false⟩ =
      .error ((PartialVMError.new
        StatusCode.BACKWARD_INCOMPATIBLE_MODULE_UPDATE).finish Location.Undefined) ∧
    StatusCode.BACKWARD_INCOMPATIBLE_MODULE_UPDATE ≠ StatusCode.DUPLICATE_MODULE_NAME :=
  ⟨rfl, rfl, by decide⟩

/-- C9 (amended): a bundle with a repeated ModuleId always makes
    `verify_module_bundle` fail (once it deserializes and passes the address
    check), and it fails precisely with the duplicate-module error whenever the
    per-module republish checks cannot fire first — in particular whenever no
    module of the bundle pre-exists in the DataStore. The duplicate check runs
    after the republish/compatibility checks inside each iteration, not before
    them. -/
theorem verify_bundle_duplicate_amended (ext : VMExternals) (store : DataStore)
    (blobs : List Blob) (sender : Nat) (opt : PublishModuleBundleOption)
    (cms : List CompiledModule)
    (hdes : deserialize_all ext.deserialize blobs = .ok cms)
    (haddr : ∀ m ∈ cms, m.address = sender)
    (hdup : ¬ (cms.map CompiledModule.self_id).Nodup) :
    (∃ e, verify_module_bundle ext store blobs sender opt = .error e) ∧
    ((∀ m ∈ cms, exists_module store m.self_id = false) →
      verify_module_bundle ext store blobs sender opt =
        .error ((PartialVMError.new StatusCode.DUPLICATE_MODULE_NAME).finish
          Location.Undefined)) := by
  have haddrok := check_modules_address_ok sender cms haddr
  constructor
  · obtain ⟨e, he⟩ := check_republish_loop_dup_fails ext store opt cms []
      (Or.inl hdup)
    exact ⟨e, by simp [verify_module_bundle, hdes, haddrok, he]⟩
  · intro hfresh
    have hloop := check_republish_loop_dup_fresh ext store opt cms [] hfresh
      (Or.inl hdup)
    simp [verify_module_bundle, hdes, haddrok, hloop]

/-- Witness for C9 (amended): two identical fresh modules (empty store) are
    rejected with the duplicate-module error. -/
theorem verify_bundle_duplicate_amended_witness :
    verify_module_bundle extOk [] [[1], [1]] 2 ⟨false, false⟩ =
      .error ((PartialVMError.new StatusCode.DUPLICATE_MODULE_NAME).finish
        Location.Undefined) :=
  (verify_bundle_duplicate_amended extOk [] [[1], [1]] 2 ⟨false, false⟩
    [exModule, exModule] rfl (by decide) (by decide)).2 (by decide)

/-! ## Runtime types and values (move-vm-types, external value layer)

The value layer itself is an external collaborator (spec §2, "Value
Representation boundary"); only its access contract is modelled here. -/

/-- The runtime types (`move_vm_types::loaded_data::runtime_types::Type`)
    relevant to the natives and the entry-argument verifier. -/
inductive MoveType where
  | bool
  | u8
  | u64
  | u128
  | address
  | signer
  | vector (t : MoveType)
  | reference (t : MoveType)
deriving DecidableEq

/-- `Type::is_signer`. -/
def MoveType.is_signer : MoveType → Bool
  | MoveType.signer => true
  | _ => false

/-- Modelled from the spec: opaque runtime value handles (scalars, byte
    vectors, container values, references into containers) that native
    functions read and mutate (spec §3, Value / VectorRef). A reference handle
    carries the current contents of the container it aliases; mutation through
    it is made explicit by returning the post-call contents. -/
inductive Value where
  | u64 (n : Nat)
  | address (a : Nat)
  | signer (a : Nat)
  | vectorU8 (bs : List Nat)
  | vector (elems : List Value)
  | vectorRef (elems : List Value)
  | elemRef (v : Value)

/-- `VMValueCast<u64>`: a runtime-tag check (a mismatch is the internal
    dispatch-contract fault `INTERNAL_TYPE_ERROR`, never a user abort). -/
def Value.as_u64 : Value → Except PartialVMError Nat
  | Value.u64 n => .ok n
  | _ => .error (PartialVMError.new StatusCode.INTERNAL_TYPE_ERROR)

/-- `VMValueCast<Vec<u8>>`. -/
def Value.as_vectorU8 : Value → Except PartialVMError (List Nat)
  | Value.vectorU8 bs => .ok bs
  | _ => .error (PartialVMError.new StatusCode.INTERNAL_TYPE_ERROR)

/-- `VMValueCast<VectorRef>`. -/
def Value.as_vectorRef : Value → Except PartialVMError (List Value)
  | Value.vectorRef elems => .ok elems
  | _ => .error (PartialVMError.new StatusCode.INTERNAL_TYPE_ERROR)

/-- `VMValueCast<Vector>`. -/
def Value.as_vector : Value → Except PartialVMError (List Value)
  | Value.vector elems => .ok elems
  | _ => .error (PartialVMError.new StatusCode.INTERNAL_TYPE_ERROR)

/-- `VecDeque::pop_back`: the argument popped first is the last-declared one. -/
def popBack : List Value → Option (Value × List Value)
  | [] => none
  | [v] => some (v, [])
  | v :: rest =>
    match popBack rest with
    | none => none
    | some (last, front) => some (last, v :: front)

/-- Modelled from the spec: a successful native call's result — the §4.4
    contract `invoke(ty_args, args) -> Result<(gas_cost, results), AbortCode)`;
    failures travel in the `Except` layer. -/
inductive NativeResult where
  | ok (cost : Nat) (values : List Value)

/-- Modelled from the spec: the move-vm-types helper
    `NativeResult::map_partial_vm_result_one` (not under src/): wrap a fallible
    single value into a native result at the given cost, propagating errors. -/
def NativeResult.map_partial_vm_result_one (cost : Nat) :
    Except PartialVMError Value → Except PartialVMError NativeResult
  | .ok v => .ok (NativeResult.ok cost [v])
  | .error e => .error e

/-- Modelled from the spec: the move-vm-types helper
    `NativeResult::map_partial_vm_result_empty` (not under src/): wrap a
    fallible unit outcome into a result with no return values. -/
def NativeResult.map_partial_vm_result_empty (cost : Nat) :
    Except PartialVMError Unit → Except PartialVMError NativeResult
  | .ok _ => .ok (NativeResult.ok cost [])
  | .error e => .error e

/-! ## Hashing natives (`move-stdlib/src/natives/hash.rs`) -/

/-- `Sha2_256GasParameters`: base cost, per-byte cost, legacy minimum input
    length (gas quantities embedded as naturals). -/
structure Sha2_256GasParameters where
  base : Nat
  per_byte : Nat
  legacy_min_input_len : Nat
deriving DecidableEq

/-- `Sha3_256GasParameters`. -/
structure Sha3_256GasParameters where
  base : Nat
  per_byte : Nat
  legacy_min_input_len : Nat
deriving DecidableEq

/-- `native_sha2_256`: pop the byte-vector argument, charge
    `base + per_byte * max(len, legacy_min_input_len)`, return the digest. The
    digest function itself (the external sha2 crate) is a parameter. -/
def native_sha2_256 (sha2_digest : List Nat → List Nat)
    (gas_params : Sha2_256GasParameters) (_ty_args : List MoveType)
    (arguments : List Value) : Except PartialVMError NativeResult :=
  match popBack arguments with
  | none => .error (PartialVMError.new StatusCode.UNKNOWN_INVARIANT_VIOLATION_ERROR)
  | some (v, _) =>
    match v.as_vectorU8 with
    | .error e => .error e
    | .ok hash_arg =>
      let cost := gas_params.base +
        gas_params.per_byte * max hash_arg.length gas_params.legacy_min_input_len
      .ok (NativeResult.ok cost [Value.vectorU8 (sha2_digest hash_arg)])

/-- `native_sha3_256`: same shape as `native_sha2_256` with its own gas
    parameters and the external sha3 digest. -/
def native_sha3_256 (sha3_digest : List Nat → List Nat)
    (gas_params : Sha3_256GasParameters) (_ty_args : List MoveType)
    (arguments : List Value) : Except PartialVMError NativeResult :=
  match popBack arguments with
  | none => .error (PartialVMError.new StatusCode.UNKNOWN_INVARIANT_VIOLATION_ERROR)
  | some (v, _) =>
    match v.as_vectorU8 with
    | .error e => .error e
    | .ok hash_arg =>
      let cost := gas_params.base +
        gas_params.per_byte * max hash_arg.length gas_params.legacy_min_input_len
      .ok (NativeResult.ok cost [Value.vectorU8 (sha3_digest hash_arg)])

/-- C3: on any byte-vector input both hashing natives succeed and charge
    exactly `base + per_byte * max(len, legacy_min_input_len)`; the cost is
    non-decreasing in the input length; and with base 50, per-byte 2 and
    legacy minimum 10, a 3-byte input costs 70 while a 20-byte input costs 90. -/
theorem hash_natives_gas (sha2_digest sha3_digest : List Nat → List Nat)
    (p2 : Sha2_256GasParameters) (p3 : Sha3_256GasParameters)
    (bs bs2 : List Nat) (hlen : bs.length ≤ bs2.length) :
    native_sha2_256 sha2_digest p2 [] [Value.vectorU8 bs] =
      .ok (NativeResult.ok
        (p2.base + p2.per_byte * max bs.length p2.legacy_min_input_len)
        [Value.vectorU8 (sha2_digest bs)]) ∧
    native_sha3_256 sha3_digest p3 [] [Value.vectorU8 bs] =
      .ok (NativeResult.ok
        (p3.base + p3.per_byte * max bs.length p3.legacy_min_input_len)
        [Value.vectorU8 (sha3_digest bs)]) ∧
    p2.base + p2.per_byte * max bs.length p2.legacy_min_input_len ≤
      p2.base + p2.per_byte * max bs2.length p2.legacy_min_input_len ∧
    native_sha2_256 sha2_digest ⟨50, 2, 10⟩ [] [Value.vectorU8 [0, 1, 2]] =
      .ok (NativeResult.ok 70 [Value.vectorU8 (sha2_digest [0, 1, 2])]) ∧
    native_sha3_256 sha3_digest ⟨50, 2, 10⟩ [] [Value.vectorU8 (List.range 20)] =
      .ok (NativeResult.ok 90 [Value.vectorU8 (sha3_digest (List.range 20))]) := by
  refine ⟨rfl, rfl, ?_, ?_, ?_⟩
  · exact Nat.add_le_add_left
      (Nat.mul_le_mul_left _ (max_le_max_right _ hlen)) _
  · show Except.ok (NativeResult.ok (50 + 2 * max 3 10) _) = _
    norm_num
  · show Except.ok (NativeResult.ok (50 + 2 * max (List.range 20).length 10) _) = _
    norm_num

/-- Witness for C3: concrete digests (the identity), concrete gas parameters
    and the two concrete input lengths from the claim. -/
theorem hash_natives_gas_witness :
    native_sha2_256 (fun l => l) ⟨50, 2, 10⟩ [] [Value.vectorU8 [0, 1, 2]] =
      .ok (NativeResult.ok (50 + 2 * max 3 10) [Value.vectorU8 [0, 1, 2]]) ∧
    native_sha3_256 (fun l => l) ⟨50, 2, 10⟩ [] [Value.vectorU8 [0, 1, 2]] =
      .ok (NativeResult.ok (50 + 2 * max 3 10) [Value.vectorU8 [0, 1, 2]]) ∧
    50 + 2 * max 3 10 ≤ 50 + 2 * max 20 10 ∧
    native_sha2_256 (fun l => l) ⟨50, 2, 10⟩ [] [Value.vectorU8 [0, 1, 2]] =
      .ok (NativeResult.ok 70 [Value.vectorU8 [0, 1, 2]]) ∧
    native_sha3_256 (fun l => l) ⟨50, 2, 10⟩ [] [Value.vectorU8 (List.range 20)] =
      .ok (NativeResult.ok 90 [Value.vectorU8 (List.range 20)]) := by
  have h := hash_natives_gas (fun l => l) (fun l => l) ⟨50, 2, 10⟩ ⟨50, 2, 10⟩
    [0, 1, 2] (List.range 20) (by decide)
  simpa using h

/-! ## Vector container layer (external value layer, modelled from the spec)

The `Vector` / `VectorRef` operations live in move-vm-types' value
implementation, which is not under src/; they are modelled from the spec
(§4.4): mutating operations go through the reference handle, an out-of-bounds
index surfaces the internal vector-operation error without mutating anything,
and each result carries the container contents after the call. -/

/-- Sub-status of the internal vector-operation error for an out-of-range
    index (value layer constant). -/
def INDEX_OUT_OF_BOUNDS : Nat := 1

/-- Sub-status for popping an empty vector (value layer constant). -/
def POP_EMPTY_VEC : Nat := 2

/-- Sub-status for destroying a non-empty vector (value layer constant). -/
def DESTROY_NON_EMPTY_VEC : Nat := 3

/-- The internal vector-operation error with a sub-status code. -/
def vector_operation_error (sub : Nat) : PartialVMError :=
  (PartialVMError.new StatusCode.VECTOR_OPERATION_ERROR).with_sub_status sub

/-- Modelled from the spec: `Vector::empty` — a fresh empty container value. -/
def VectorVal.empty : Except PartialVMError Value :=
  .ok (Value.vector [])

/-- Modelled from the spec: `Vector::destroy_empty` — succeeds only on an
    empty container, otherwise surfaces the internal vector-operation error. -/
def VectorVal.destroy_empty (elems : List Value) : Except PartialVMError Unit :=
  if elems.isEmpty then .ok ()
  else .error (vector_operation_error DESTROY_NON_EMPTY_VEC)

/-- Modelled from the spec: `VectorRef::len`. -/
def VectorRef.len (elems : List Value) : Except PartialVMError Value :=
  .ok (Value.u64 elems.length)

/-- Modelled from the spec: `VectorRef::push_back` — append through the
    reference handle. -/
def VectorRef.push_back (elems : List Value) (e : Value) :
    Except PartialVMError Unit × List Value :=
  (.ok (), elems ++ [e])

/-- Modelled from the spec: `VectorRef::borrow_elem` — at an in-range index,
    a reference to the element and an unchanged container; at an out-of-range
    index, the internal vector-operation error with the `INDEX_OUT_OF_BOUNDS`
    sub-status, and the container is not mutated. -/
def VectorRef.borrow_elem (elems : List Value) (idx : Nat) :
    Except PartialVMError Value × List Value :=
  if h : idx < elems.length then (.ok (Value.elemRef (elems.get ⟨idx, h⟩)), elems)
  else (.error (vector_operation_error INDEX_OUT_OF_BOUNDS), elems)

/-- Modelled from the spec: `VectorRef::pop` — the last element, or the
    internal vector-operation error on an empty container. -/
def VectorRef.pop (elems : List Value) :
    Except PartialVMError Value × List Value :=
  match elems.getLast? with
  | none => (.error (vector_operation_error POP_EMPTY_VEC), elems)
  | some v => (.ok v, elems.dropLast)

/-- Modelled from the spec: `VectorRef::swap` — exchange two in-range
    elements; out-of-range indices abort without mutating. -/
def VectorRef.swap (elems : List Value) (i j : Nat) :
    Except PartialVMError Unit × List Value :=
  if i < elems.length ∧ j < elems.length then
    (.ok (), (elems.set i (elems.getD j (Value.u64 0))).set j
      (elems.getD i (Value.u64 0)))
  else (.error (vector_operation_error INDEX_OUT_OF_BOUNDS), elems)

/-- Modelled from the spec: the abstract memory size of a value — "a
    deterministic structural size metric independent of backing
    representation" (§4.4), with a legacy constant for scalars and references
    and a length-based size for containers. -/
def Value.legacy_abstract_memory_size : Value → Nat
  | Value.vector elems => 8 + elems.length
  | Value.vectorU8 bs => 8 + bs.length
  | _ => 16

/-- Modelled from the spec: `VectorRef::spawn_from` — copy `len` elements
    starting at `offset` into a fresh container, reporting the abstract memory
    size of the copy; out-of-range slices abort without mutating. -/
def VectorRef.spawn_from (elems : List Value) (offset len : Nat) :
    Except PartialVMError Value × Nat :=
  if offset + len ≤ elems.length then
    let sub := (elems.drop offset).take len
    (.ok (Value.vector sub),
      sub.foldl (fun acc v => acc + v.legacy_abstract_memory_size) 0)
  else (.error (vector_operation_error INDEX_OUT_OF_BOUNDS), 0)

/-- Modelled from the spec: `VectorRef::append` — move every element of the
    other container to the back of the referenced one, reporting the abstract
    memory size moved. -/
def VectorRef.append (elems other : List Value) :
    Except PartialVMError Unit × List Value × Nat :=
  (.ok (), elems ++ other,
    other.foldl (fun acc v => acc + v.legacy_abstract_memory_size) 0)

/-- Modelled from the spec: `VectorRef::remove` — remove and return the
    element at an in-range index; out-of-range aborts without mutating. -/
def VectorRef.remove (elems : List Value) (idx : Nat) :
    Except PartialVMError Value × List Value × Nat :=
  if h : idx < elems.length then
    (.ok (elems.get ⟨idx, h⟩), elems.eraseIdx idx,
      (elems.get ⟨idx, h⟩).legacy_abstract_memory_size)
  else (.error (vector_operation_error INDEX_OUT_OF_BOUNDS), elems, 0)

/-- Modelled from the spec: `VectorRef::reverse` — reverse in place,
    reporting a length-based abstract memory cost. -/
def VectorRef.reverse (elems : List Value) :
    Except PartialVMError Unit × List Value × Nat :=
  (.ok (), elems.reverse, elems.length)

/-! ## Vector natives (`move-stdlib/src/natives/vector.rs`) -/

/-- The uniform shape of an embedded native: type arguments and operand
    arguments in, a native result (or error) out, paired with the contents of
    the referenced container after the call (mutation through the reference
    handle made explicit; `[]` when no container reference is involved). -/
abbrev NativeFunction :=
  List MoveType → List Value → Except PartialVMError NativeResult × List Value

/-- `EmptyGasParameters`. -/
structure EmptyGasParameters where
  base : Nat
deriving DecidableEq

/-- `native_empty`. -/
def native_empty (gas_params : EmptyGasParameters) (_ty_args : List MoveType)
    (_args : List Value) : Except PartialVMError NativeResult × List Value :=
  (NativeResult.map_partial_vm_result_one gas_params.base VectorVal.empty, [])

/-- `make_native_empty`. -/
def make_native_empty (gas_params : EmptyGasParameters) : NativeFunction :=
  fun ty_args args => native_empty gas_params ty_args args

/-- `LengthGasParameters`. -/
structure LengthGasParameters where
  base : Nat
deriving DecidableEq

/-- `native_length`. -/
def native_length (gas_params : LengthGasParameters) (_ty_args : List MoveType)
    (args : List Value) : Except PartialVMError NativeResult × List Value :=
  match popBack args with
  | none => (.error (PartialVMError.new StatusCode.UNKNOWN_INVARIANT_VIOLATION_ERROR), [])
  | some (rv, _) =>
    match rv.as_vectorRef with
    | .error e => (.error e, [])
    | .ok elems =>
      (NativeResult.map_partial_vm_result_one gas_params.base (VectorRef.len elems),
        elems)

/-- `make_native_length`. -/
def make_native_length (gas_params : LengthGasParameters) : NativeFunction :=
  fun ty_args args => native_length gas_params ty_args args

/-- `PushBackGasParameters`. -/
structure PushBackGasParameters where
  base : Nat
  legacy_per_abstract_memory_unit : Nat
deriving DecidableEq

/-- `native_push_back`: gas is `base`, plus
    `legacy_per_abstract_memory_unit * max(size_of(val), 1)` when the
    per-unit parameter is non-zero. -/
def native_push_back (gas_params : PushBackGasParameters)
    (_ty_args : List MoveType) (args : List Value) :
    Except PartialVMError NativeResult × List Value :=
  match popBack args with
  | none => (.error (PartialVMError.new StatusCode.UNKNOWN_INVARIANT_VIOLATION_ERROR), [])
  | some (e, rest) =>
    match popBack rest with
    | none => (.error (PartialVMError.new StatusCode.UNKNOWN_INVARIANT_VIOLATION_ERROR), [])
    | some (rv, _) =>
      match rv.as_vectorRef with
      | .error err => (.error err, [])
      | .ok elems =>
        let cost := gas_params.base +
          (if gas_params.legacy_per_abstract_memory_unit ≠ 0 then
            gas_params.legacy_per_abstract_memory_unit *
              max e.legacy_abstract_memory_size 1
          else 0)
        let (res, elems') := VectorRef.push_back elems e
        (NativeResult.map_partial_vm_result_empty cost res, elems')

/-- `make_native_push_back`. -/
def make_native_push_back (gas_params : PushBackGasParameters) : NativeFunction :=
  fun ty_args args => native_push_back gas_params ty_args args

/-- `BorrowGasParameters`. -/
structure BorrowGasParameters where
  base : Nat
deriving DecidableEq

/-- `derive(Clone)` on `BorrowGasParameters`: a field-for-field copy. -/
def BorrowGasParameters.clone (gas_params : BorrowGasParameters) :
    BorrowGasParameters :=
  gas_params

/-- `native_borrow`: pop the index then the vector reference, borrow the
    element at the index, remapping any container-layer error through
    `native_error_to_abort`. -/
def native_borrow (gas_params : BorrowGasParameters) (_ty_args : List MoveType)
    (args : List Value) : Except PartialVMError NativeResult × List Value :=
  match popBack args with
  | none => (.error (PartialVMError.new StatusCode.UNKNOWN_INVARIANT_VIOLATION_ERROR), [])
  | some (idxv, rest) =>
    match idxv.as_u64 with
    | .error e => (.error e, [])
    | .ok idx =>
      match popBack rest with
      | none => (.error (PartialVMError.new StatusCode.UNKNOWN_INVARIANT_VIOLATION_ERROR), [])
      | some (rv, _) =>
        match rv.as_vectorRef with
        | .error e => (.error e, [])
        | .ok elems =>
          let (res, elems') := VectorRef.borrow_elem elems idx
          (NativeResult.map_partial_vm_result_one gas_params.base
            (res.mapError native_error_to_abort), elems')

/-- `make_native_borrow`: the closure over its gas parameters used for both
    the `borrow` and `borrow_mut` table entries. -/
def make_native_borrow (gas_params : BorrowGasParameters) : NativeFunction :=
  fun ty_args args => native_borrow gas_params ty_args args

/-- `PopBackGasParameters`. -/
structure PopBackGasParameters where
  base : Nat
deriving DecidableEq

/-- `native_pop_back`. -/
def native_pop_back (gas_params : PopBackGasParameters) (_ty_args : List MoveType)
    (args : List Value) : Except PartialVMError NativeResult × List Value :=
  match popBack args with
  | none => (.error (PartialVMError.new StatusCode.UNKNOWN_INVARIANT_VIOLATION_ERROR), [])
  | some (rv, _) =>
    match rv.as_vectorRef with
    | .error e => (.error e, [])
    | .ok elems =>
      let (res, elems') := VectorRef.pop elems
      (NativeResult.map_partial_vm_result_one gas_params.base
        (res.mapError native_error_to_abort), elems')

/-- `make_native_pop_back`. -/
def make_native_pop_back (gas_params : PopBackGasParameters) : NativeFunction :=
  fun ty_args args => native_pop_back gas_params ty_args args

/-- `SpawnFromParameters`. -/
structure SpawnFromParameters where
  base : Nat
  legacy_per_abstract_memory_unit : Nat
deriving DecidableEq

/-- `native_spawn_from`. -/
def native_spawn_from (gas_params : SpawnFromParameters) (_ty_args : List MoveType)
    (args : List Value) : Except PartialVMError NativeResult × List Value :=
  match popBack args with
  | none => (.error (PartialVMError.new StatusCode.UNKNOWN_INVARIANT_VIOLATION_ERROR), [])
  | some (lenv, rest) =>
    match lenv.as_u64 with
    | .error e => (.error e, [])
    | .ok len =>
      match popBack rest with
      | none => (.error (PartialVMError.new StatusCode.UNKNOWN_INVARIANT_VIOLATION_ERROR), [])
      | some (offv, rest2) =>
        match offv.as_u64 with
        | .error e => (.error e, [])
        | .ok offset =>
          match popBack rest2 with
          | none => (.error (PartialVMError.new StatusCode.UNKNOWN_INVARIANT_VIOLATION_ERROR), [])
          | some (rv, _) =>
            match rv.as_vectorRef with
            | .error e => (.error e, [])
            | .ok elems =>
              let (res, memory_cost) := VectorRef.spawn_from elems offset len
              let cost := gas_params.base +
                (if gas_params.legacy_per_abstract_memory_unit ≠ 0 then
                  gas_params.legacy_per_abstract_memory_unit * max memory_cost 1
                else 0)
              (NativeResult.map_partial_vm_result_one cost
                (res.mapError native_error_to_abort), elems)

/-- `make_spawn_from`. -/
def make_spawn_from (gas_params : SpawnFromParameters) : NativeFunction :=
  fun ty_args args => native_spawn_from gas_params ty_args args

/-- `DestroyEmptyGasParameters`. -/
structure DestroyEmptyGasParameters where
  base : Nat
deriving DecidableEq

/-- `native_destroy_empty`. -/
def native_destroy_empty (gas_params : DestroyEmptyGasParameters)
    (_ty_args : List MoveType) (args : List Value) :
    Except PartialVMError NativeResult × List Value :=
  match popBack args with
  | none => (.error (PartialVMError.new StatusCode.UNKNOWN_INVARIANT_VIOLATION_ERROR), [])
  | some (v, _) =>
    match v.as_vector with
    | .error e => (.error e, [])
    | .ok elems =>
      (NativeResult.map_partial_vm_result_empty gas_params.base
        ((VectorVal.destroy_empty elems).mapError native_error_to_abort), [])

/-- `make_native_destroy_empty`. -/
def make_native_destroy_empty (gas_params : DestroyEmptyGasParameters) :
    NativeFunction :=
  fun ty_args args => native_destroy_empty gas_params ty_args args

/-- `SwapGasParameters`. -/
structure SwapGasParameters where
  base : Nat
deriving DecidableEq

/-- `native_swap`. -/
def native_swap (gas_params : SwapGasParameters) (_ty_args : List MoveType)
    (args : List Value) : Except PartialVMError NativeResult × List Value :=
  match popBack args with
  | none => (.error (PartialVMError.new StatusCode.UNKNOWN_INVARIANT_VIOLATION_ERROR), [])
  | some (idx2v, rest) =>
    match idx2v.as_u64 with
    | .error e => (.error e, [])
    | .ok idx2 =>
      match popBack rest with
      | none => (.error (PartialVMError.new StatusCode.UNKNOWN_INVARIANT_VIOLATION_ERROR), [])
      | some (idx1v, rest2) =>
        match idx1v.as_u64 with
        | .error e => (.error e, [])
        | .ok idx1 =>
          match popBack rest2 with
          | none => (.error (PartialVMError.new StatusCode.UNKNOWN_INVARIANT_VIOLATION_ERROR), [])
          | some (rv, _) =>
            match rv.as_vectorRef with
            | .error e => (.error e, [])
            | .ok elems =>
              let (res, elems') := VectorRef.swap elems idx1 idx2
              (NativeResult.map_partial_vm_result_empty gas_params.base
                (res.mapError native_error_to_abort), elems')

/-- `make_native_swap`. -/
def make_native_swap (gas_params : SwapGasParameters) : NativeFunction :=
  fun ty_args args => native_swap gas_params ty_args args

/-- `AppendGasParameters`. -/
structure AppendGasParameters where
  base : Nat
  legacy_per_abstract_memory_unit : Nat
deriving DecidableEq

/-- `native_append`: note the per-unit term is not clamped to 1 here. -/
def native_append (gas_params : AppendGasParameters) (_ty_args : List MoveType)
    (args : List Value) : Except PartialVMError NativeResult × List Value :=
  match popBack args with
  | none => (.error (PartialVMError.new StatusCode.UNKNOWN_INVARIANT_VIOLATION_ERROR), [])
  | some (ev, rest) =>
    match popBack rest with
    | none => (.error (PartialVMError.new StatusCode.UNKNOWN_INVARIANT_VIOLATION_ERROR), [])
    | some (rv, _) =>
      match rv.as_vectorRef with
      | .error e => (.error e, [])
      | .ok elems =>
        match ev.as_vector with
        | .error e => (.error e, [])
        | .ok other =>
          let (res, elems', memory_cost) := VectorRef.append elems other
          let cost := gas_params.base +
            (if gas_params.legacy_per_abstract_memory_unit ≠ 0 then
              gas_params.legacy_per_abstract_memory_unit * memory_cost
            else 0)
          (NativeResult.map_partial_vm_result_empty cost
            (res.mapError native_error_to_abort), elems')

/-- `make_native_append`. -/
def make_native_append (gas_params : AppendGasParameters) : NativeFunction :=
  fun ty_args args => native_append gas_params ty_args args

/-- `RemoveGasParameters`. -/
structure RemoveGasParameters where
  base : Nat
  legacy_per_abstract_memory_unit : Nat
deriving DecidableEq

/-- `native_remove`. -/
def native_remove (gas_params : RemoveGasParameters) (_ty_args : List MoveType)
    (args : List Value) : Except PartialVMError NativeResult × List Value :=
  match popBack args with
  | none => (.error (PartialVMError.new StatusCode.UNKNOWN_INVARIANT_VIOLATION_ERROR), [])
  | some (idxv, rest) =>
    match idxv.as_u64 with
    | .error e => (.error e, [])
    | .ok idx =>
      match popBack rest with
      | none => (.error (PartialVMError.new StatusCode.UNKNOWN_INVARIANT_VIOLATION_ERROR), [])
      | some (rv, _) =>
        match rv.as_vectorRef with
        | .error e => (.error e, [])
        | .ok elems =>
          let (res, elems', memory_cost) := VectorRef.remove elems idx
          let cost := gas_params.base +
            (if gas_params.legacy_per_abstract_memory_unit ≠ 0 then
              gas_params.legacy_per_abstract_memory_unit * max memory_cost 1
            else 0)
          (NativeResult.map_partial_vm_result_one cost
            (res.mapError native_error_to_abort), elems')

/-- `make_native_remove`. -/
def make_native_remove (gas_params : RemoveGasParameters) : NativeFunction :=
  fun ty_args args => native_remove gas_params ty_args args

/-- `ReverseGasParameters`. -/
structure ReverseGasParameters where
  base : Nat
  legacy_per_abstract_memory_unit : Nat
deriving DecidableEq

/-- `native_reverse`. -/
def native_reverse (gas_params : ReverseGasParameters) (_ty_args : List MoveType)
    (args : List Value) : Except PartialVMError NativeResult × List Value :=
  match popBack args with
  | none => (.error (PartialVMError.new StatusCode.UNKNOWN_INVARIANT_VIOLATION_ERROR), [])
  | some (rv, _) =>
    match rv.as_vectorRef with
    | .error e => (.error e, [])
    | .ok elems =>
      let (res, elems', memory_cost) := VectorRef.reverse elems
      let cost := gas_params.base +
        (if gas_params.legacy_per_abstract_memory_unit ≠ 0 then
          gas_params.legacy_per_abstract_memory_unit * max memory_cost 1
        else 0)
      (NativeResult.map_partial_vm_result_empty cost
        (res.mapError native_error_to_abort), elems')

/-- `make_native_reverse`. -/
def make_native_reverse (gas_params : ReverseGasParameters) : NativeFunction :=
  fun ty_args args => native_reverse gas_params ty_args args

/-- The per-module `GasParameters` record of `natives/vector.rs`. -/
structure GasParameters where
  empty : EmptyGasParameters
  length : LengthGasParameters
  push_back : PushBackGasParameters
  borrow : BorrowGasParameters
  pop_back : PopBackGasParameters
  destroy_empty : DestroyEmptyGasParameters
  swap : SwapGasParameters
  append : AppendGasParameters
  remove : RemoveGasParameters
  reverse : ReverseGasParameters
  spawn_from : SpawnFromParameters
deriving DecidableEq

/-- Modelled from the spec: `make_module_natives` from the stdlib natives
    helpers (helpers.rs, not under src/): pair each function name with its
    implementation to form the module's part of the NativeFunctionTable. -/
def make_module_natives (natives : List (String × NativeFunction)) :
    List (String × NativeFunction) :=
  natives

/-- `make_all` from `natives/vector.rs`: the vector module's native table.
    Both `borrow` and `borrow_mut` are registered to `make_native_borrow`,
    the first over a clone of the borrow gas parameters, the second over the
    parameters themselves. -/
def make_all (gas_params : GasParameters) : List (String × NativeFunction) :=
  make_module_natives [
    (("empty"), make_native_empty gas_params.empty),
    (("length"), make_native_length gas_params.length),
    (("push_back"), make_native_push_back gas_params.push_back),
    (("borrow"), make_native_borrow gas_params.borrow.clone),
    (("borrow_mut"), make_native_borrow gas_params.borrow),
    (("pop_back"), make_native_pop_back gas_params.pop_back),
    (("spawn_from"), make_spawn_from gas_params.spawn_from),
    (("destroy_empty"), make_native_destroy_empty gas_params.destroy_empty),
    (("swap"), make_native_swap gas_params.swap),
    (("native_append"), make_native_append gas_params.append),
    (("native_remove"), make_native_remove gas_params.remove),
    (("native_reverse"), make_native_reverse gas_params.reverse)]

/-! ## C5: out-of-range borrow -/

/-- C5: for every vector reference, element type and index at or beyond the
    vector's length, `native_borrow` returns an abort — the remapped
    `ABORTED` major status with the out-of-bounds sub-status, not a
    dispatch-contract violation — and the referenced vector's contents after
    the call are exactly the contents before it. -/
theorem native_borrow_out_of_range (gas_params : BorrowGasParameters)
    (ty : MoveType) (elems : List Value) (idx : Nat)
    (h : elems.length ≤ idx) :
    native_borrow gas_params [ty] [Value.vectorRef elems, Value.u64 idx] =
      (.error ((PartialVMError.new StatusCode.ABORTED).with_sub_status
        INDEX_OUT_OF_BOUNDS), elems) ∧
    ((PartialVMError.new StatusCode.ABORTED).with_sub_status
      INDEX_OUT_OF_BOUNDS).major_status = StatusCode.ABORTED := by
  have hlt : ¬ idx < elems.length := Nat.not_lt.mpr h
  refine ⟨?_, rfl⟩
  simp [native_borrow, popBack, Value.as_u64, Value.as_vectorRef,
    VectorRef.borrow_elem, dif_neg hlt, Except.mapError,
    NativeResult.map_partial_vm_result_one, native_error_to_abort,
    vector_operation_error, PartialVMError.new, PartialVMError.with_sub_status,
    PartialVMError.at_indices, PartialVMError.at_code_offsets]

/-- Witness for C5: borrowing index 1 of a one-element vector. -/
theorem native_borrow_out_of_range_witness :
    native_borrow ⟨3⟩ [MoveType.u64] [Value.vectorRef [Value.u64 5], Value.u64 1] =
      (.error ((PartialVMError.new StatusCode.ABORTED).with_sub_status
        INDEX_OUT_OF_BOUNDS), [Value.u64 5]) ∧
    ((PartialVMError.new StatusCode.ABORTED).with_sub_status
      INDEX_OUT_OF_BOUNDS).major_status = StatusCode.ABORTED :=
  native_borrow_out_of_range ⟨3⟩ MoveType.u64 [Value.u64 5] 1 (by decide)

/-! ## C10: borrow and borrow_mut share one implementation -/

/-- C10: in the vector native table, `borrow` and `borrow_mut` are both
    registered to `make_native_borrow` over equal `BorrowGasParameters` (the
    first over a clone), so on every type-argument list and argument list the
    two registered natives return the same result and charge the same gas. -/
theorem borrow_and_borrow_mut_same_native (gas_params : GasParameters) :
    List.lookup ("borrow") (make_all gas_params) =
      some (make_native_borrow gas_params.borrow) ∧
    List.lookup ("borrow_mut") (make_all gas_params) =
      some (make_native_borrow gas_params.borrow) ∧
    ∀ (ty_args : List MoveType) (args : List Value),
      make_native_borrow gas_params.borrow.clone ty_args args =
        make_native_borrow gas_params.borrow ty_args args := by
  refine ⟨?_, ?_, fun _ _ => rfl⟩ <;> rfl

/-! ## Entry-argument verification
    (`move_vm_adapter.rs`, `check_script_signer_and_build_args`) -/

/-- move-core `MoveValue`, restricted to the constructors needed here. -/
inductive MoveValue where
  | u64 (n : Nat)
  | signer (a : Nat)
deriving DecidableEq

/-- Modelled from the spec: BCS-style `MoveValue::simple_serialize`
    (serialization codecs are consumed as opaque encode/decode primitives,
    spec §1): a u64 as its 8 little-endian bytes, a signer as the 16
    little-endian bytes of its account address. It is total, so the source's
    `expect("serialize signer should success")` cannot fire. -/
def simple_serialize : MoveValue → Blob
  | MoveValue.u64 n => (List.range 8).map (fun i => n / 256 ^ i % 256)
  | MoveValue.signer a => (List.range 16).map (fun i => a / 256 ^ i % 256)

/-- Little-endian byte decoding. -/
def bytes_to_nat (bs : List Nat) : Nat :=
  bs.foldr (fun b acc => b + 256 * acc) 0

/-- Modelled from the spec: the decode primitive matching `simple_serialize`,
    used to state what the final argument list deserializes to. -/
def simple_deserialize (t : MoveType) (b : Blob) : Option MoveValue :=
  match t with
  | MoveType.u64 => if b.length = 8 then some (MoveValue.u64 (bytes_to_nat b)) else none
  | MoveType.signer => if b.length = 16 then some (MoveValue.signer (bytes_to_nat b)) else none
  | _ => none

/-- The signer-position error raised when a signer parameter is found at
    position `i ≠ 0` (source message included). -/
def signer_position_error (i : Nat) : VMError :=
  ((PartialVMError.new StatusCode.NUMBER_OF_SIGNER_ARGUMENTS_MISMATCH).with_message
    (("Expected signer arg is this first arg, but got it at ") ++ toString (i + 1))).finish
    Location.Undefined

/-- The parameter scan of `check_script_signer_and_build_args`: walk the
    declared parameter types with their positions; a signer at position 0
    sets `has_signer`, a signer at any later position fails with the
    signer-position error. -/
def scan_signer_params (i : Nat) (has_signer : Bool) :
    List MoveType → Except VMError Bool
  | [] => .ok has_signer
  | t :: rest =>
    if t.is_signer then
      if i = 0 then scan_signer_params (i + 1) true rest
      else .error (signer_position_error i)
    else scan_signer_params (i + 1) has_signer rest

/-- `check_script_signer_and_build_args`: scan the parameters for a signer,
    then build the final argument list — prepending the serialized signer of
    the sender when `has_signer` — and hand it to the runtime's
    `deserialize_args` (an external collaborator, taken as a parameter)
    against the declared parameter types. -/
def check_script_signer_and_build_args
    (deserialize_args : List MoveType → List Blob → Except PartialVMError (List MoveValue))
    (arg_tys : List MoveType) (args : List Blob) (sender : Nat) :
    Except VMError Unit :=
  match scan_signer_params 0 false arg_tys with
  | .error e => .error e
  | .ok has_signer =>
    let final_args :=
      if has_signer then simple_serialize (MoveValue.signer sender) :: args
      else args
    match deserialize_args arg_tys final_args with
    | .error e => .error (e.finish Location.Undefined)
    | .ok _ => .ok ()

/-- Helper for C6: once past position 0, any signer in the remaining
    parameters makes the scan fail with the signer-position error. -/
theorem scan_signer_params_error :
    ∀ (tys : List MoveType) (i : Nat) (hs : Bool), i ≠ 0 →
      (∃ t ∈ tys, t.is_signer = true) →
      ∃ e, scan_signer_params i hs tys = .error e ∧
        e.major_status = StatusCode.NUMBER_OF_SIGNER_ARGUMENTS_MISMATCH := by
  intro tys
  induction tys with
  | nil =>
    intro i hs _ hex
    obtain ⟨t, ht, _⟩ := hex
    exact absurd ht (List.not_mem_nil t)
  | cons t rest ih =>
    intro i hs hi hex
    by_cases hts : t.is_signer = true
    · exact ⟨signer_position_error i,
        by simp [scan_signer_params, hts, hi], rfl⟩
    · have hex' : ∃ t' ∈ rest, t'.is_signer = true := by
        obtain ⟨t', ht', hsig'⟩ := hex
        rcases List.mem_cons.mp ht' with rfl | h'
        · exact absurd hsig' hts
        · exact ⟨t', h', hsig'⟩
      obtain ⟨e, he, hm⟩ := ih (i + 1) hs (Nat.succ_ne_zero i) hex'
      exact ⟨e, by simp [scan_signer_params, hts, he], hm⟩

/-- C6: a signer-typed parameter at any position other than 0 makes argument
    verification fail with the signer-position error, and it does so for
    every deserializer — the rejection happens before any argument
    deserialization is attempted. -/
theorem check_signer_not_first (arg_tys : List MoveType) (args : List Blob)
    (sender : Nat) (i : Nat) (ty : MoveType)
    (hget : arg_tys.get? i = some ty) (hi : i ≠ 0) (hsig : ty.is_signer = true) :
    ∃ e : VMError,
      (∀ deserialize_args :
          List MoveType → List Blob → Except PartialVMError (List MoveValue),
        check_script_signer_and_build_args deserialize_args arg_tys args sender =
          .error e) ∧
      e.major_status = StatusCode.NUMBER_OF_SIGNER_ARGUMENTS_MISMATCH := by
  cases arg_tys with
  | nil => simp at hget
  | cons t rest =>
    cases i with
    | zero => exact absurd rfl hi
    | succ j =>
      have hmem : ty ∈ rest := List.get?_mem hget
      have hex : ∃ t' ∈ rest, t'.is_signer = true := ⟨ty, hmem, hsig⟩
      by_cases hts : t.is_signer = true
      · obtain ⟨e, he, hm⟩ :=
          scan_signer_params_error rest 1 true (by decide) hex
        refine ⟨e, fun deserialize_args => ?_, hm⟩
        simp [check_script_signer_and_build_args, scan_signer_params, hts, he]
      · obtain ⟨e, he, hm⟩ :=
          scan_signer_params_error rest 1 false (by decide) hex
        refine ⟨e, fun deserialize_args => ?_, hm⟩
        simp [check_script_signer_and_build_args, scan_signer_params, hts, he]

/-- Witness for C6: a function declaring `(u64, signer)` — signer at
    position 1 — with sender 5. -/
theorem check_signer_not_first_witness :
    ∃ e : VMError,
      (∀ deserialize_args :
          List MoveType → List Blob → Except PartialVMError (List MoveValue),
        check_script_signer_and_build_args deserialize_args
          [MoveType.u64, MoveType.signer] [] 5 = .error e) ∧
      e.major_status = StatusCode.NUMBER_OF_SIGNER_ARGUMENTS_MISMATCH :=
  check_signer_not_first [MoveType.u64, MoveType.signer] [] 5 1 MoveType.signer
    rfl (by decide) rfl

/-- Helper for C7: a scan over signer-free parameters returns `has_signer`
    unchanged. -/
theorem scan_signer_params_no_signer :
    ∀ (tys : List MoveType) (i : Nat) (hs : Bool),
      (∀ t ∈ tys, t.is_signer = false) →
      scan_signer_params i hs tys = .ok hs := by
  intro tys
  induction tys with
  | nil => intro i hs _; rfl
  | cons t rest ih =>
    intro i hs h
    have hts : t.is_signer = false := h t (by simp)
    simp only [scan_signer_params, hts, Bool.false_eq_true, if_false]
    exact ih (i + 1) hs (fun x hx => h x (List.mem_cons_of_mem _ hx))

/-- C7: with a leading signer parameter (and no other signer), verification
    synthesizes the signer from the sender and prepends its serialized form
    before deserializing against the declared parameter types; without a
    signer parameter the raw arguments are passed unchanged; and concretely,
    for `(signer, u64)` with sender 0xAB and raw args `[u64-encoded 42]`, the
    final argument list deserializes to `[signer(0xAB), 42]`. -/
theorem check_signer_builds_args
    (deserialize_args : List MoveType → List Blob → Except PartialVMError (List MoveValue))
    (rest : List MoveType) (args : List Blob) (sender : Nat)
    (hrest : ∀ t ∈ rest, t.is_signer = false) :
    (check_script_signer_and_build_args deserialize_args
        (MoveType.signer :: rest) args sender =
      match deserialize_args (MoveType.signer :: rest)
          (simple_serialize (MoveValue.signer sender) :: args) with
      | .error e => .error (e.finish Location.Undefined)
      | .ok _ => .ok ()) ∧
    (check_script_signer_and_build_args deserialize_args rest args sender =
      match deserialize_args rest args with
      | .error e => .error (e.finish Location.Undefined)
      | .ok _ => .ok ()) ∧
    List.zipWith simple_deserialize [MoveType.signer, MoveType.u64]
        (simple_serialize (MoveValue.signer 171) ::
          [simple_serialize (MoveValue.u64 42)]) =
      [some (MoveValue.signer 171), some (MoveValue.u64 42)] := by
  have hscan : scan_signer_params 0 false (MoveType.signer :: rest) = .ok true := by
    simp only [scan_signer_params, MoveType.is_signer, if_true]
    exact scan_signer_params_no_signer rest 1 true hrest
  have hscan' : scan_signer_params 0 false rest = .ok false :=
    scan_signer_params_no_signer rest 0 false hrest
  refine ⟨?_, ?_, by decide⟩
  · simp only [check_script_signer_and_build_args, hscan, if_true]
  · simp only [check_script_signer_and_build_args, hscan', Bool.false_eq_true,
      if_false]

/-- Witness for C7: the concrete `(signer, u64)` function, sender 0xAB = 171,
    raw args `[u64-encoded 42]`, and a concrete deserializer. -/
theorem check_signer_builds_args_witness :
    (check_script_signer_and_build_args (fun _ _ => .ok [])
        (MoveType.signer :: [MoveType.u64])
        [simple_serialize (MoveValue.u64 42)] 171 =
      match (fun (_ : List MoveType) (_ : List Blob) =>
          (.ok [] : Except PartialVMError (List MoveValue)))
          (MoveType.signer :: [MoveType.u64])
          (simple_serialize (MoveValue.signer 171) ::
            [simple_serialize (MoveValue.u64 42)]) with
      | .error e => .error (e.finish Location.Undefined)
      | .ok _ => .ok ()) ∧
    (check_script_signer_and_build_args (fun _ _ => .ok [])
        [MoveType.u64] [simple_serialize (MoveValue.u64 42)] 171 =
      match (fun (_ : List MoveType) (_ : List Blob) =>
          (.ok [] : Except PartialVMError (List MoveValue)))
          [MoveType.u64] [simple_serialize (MoveValue.u64 42)] with
      | .error e => .error (e.finish Location.Undefined)
      | .ok _ => .ok ()) ∧
    List.zipWith simple_deserialize [MoveType.signer, MoveType.u64]
        (simple_serialize (MoveValue.signer 171) ::
          [simple_serialize (MoveValue.u64 42)]) =
      [some (MoveValue.signer 171), some (MoveValue.u64 42)] :=
  check_signer_builds_args (fun _ _ => .ok []) [MoveType.u64]
    [simple_serialize (MoveValue.u64 42)] 171 (by decide)

end MoveVM
